import Mathlib

/-!
Shallow embedding of the room-availability and booking-status core of the
Ashoka resort ledger application (RoomCalendar.tsx, EditTransactionDialog.tsx,
and the SQL migrations).  Dates are `yyyy-MM-dd` strings compared
lexicographically, exactly as the TypeScript source compares them with
`>=` / `<` on strings.
-/

/-- Room availability status, the `status` column of `room_availability`
(`CHECK (status IN ('available','occupied','maintenance','blocked'))`). -/
inductive RoomStatus where
  | available
  | occupied
  | maintenance
  | blocked
deriving DecidableEq, Repr

/-- Booking status, the `status` column of `bookings`
(`CHECK (status IN ('confirmed','checked_in','checked_out','cancelled'))`). -/
inductive BookingStatus where
  | confirmed
  | checked_in
  | checked_out
  | cancelled
deriving DecidableEq, Repr

/-- The `Room` record of RoomCalendar.tsx (rows of the `rooms` table). -/
structure Room where
  id : String
  room_number : String
  room_type : String
  capacity : Nat
  base_price : Nat
  amenities : List String
  description : Option String
  is_active : Bool
deriving DecidableEq, Repr

/-- The `RoomAvailability` record of RoomCalendar.tsx (rows of the
`room_availability` table); one explicit override of a room's status on a
date. -/
structure RoomAvailability where
  id : String
  room_id : String
  date : String
  status : RoomStatus
  booking_id : Option String
  notes : Option String
deriving DecidableEq, Repr

/-- The `Booking` record (rows of the `bookings` table). -/
structure Booking where
  id : String
  customer_id : String
  check_in : String
  check_out : String
  room_type : String
  guests : Nat
  total_amount : Nat
  advance_paid : Nat
  status : BookingStatus
  special_requests : Option String
deriving DecidableEq, Repr

/-- Lexicographic order on character lists, the order JavaScript uses when
comparing two strings with `<` / `>=` (code-unit comparison; the date strings
are ASCII, where code units and code points agree). -/
def charListLt : List Char → List Char → Bool
  | _, [] => false
  | [], _ :: _ => true
  | a :: as, b :: bs =>
    if a < b then true else if b < a then false else charListLt as bs

/-- JavaScript string `a < b`. -/
def strLt (a b : String) : Bool := charListLt a.data b.data

/-- JavaScript string `a >= b`: strings are totally ordered, so `a >= b` is
the negation of `a < b`. -/
def strGe (a b : String) : Bool := !(strLt a b)

/-- `getAvailabilityForDate` (RoomCalendar.tsx 279-281): first override record
whose `room_id` and `date` match. -/
def getAvailabilityForDate (availability : List RoomAvailability)
    (roomId date : String) : Option RoomAvailability :=
  availability.find? (fun a => a.room_id == roomId && a.date == date)

/-- The booking predicate shared by `getRoomStatus` and `getBookingForDate`
(RoomCalendar.tsx 270-274 and 287-291): the booking is for the room's type,
covers the date in the half-open interval `[check_in, check_out)` under
string comparison, and is not cancelled. -/
def bookingDisplayMatch (room : Room) (date : String) (b : Booking) : Bool :=
  b.room_type == room.room_type
    && strGe date b.check_in && strLt date b.check_out
    && (b.status != BookingStatus.cancelled)

/-- The predicate of the `bookings.find` inside `getRoomStatus`
(RoomCalendar.tsx 270-274): the room is looked up by id inside the predicate;
when no room with that id exists the comparison with `undefined` is false. -/
def bookingOccupies (rooms : List Room) (roomId date : String)
    (b : Booking) : Bool :=
  match rooms.find? (fun r => r.id == roomId) with
  | some r => bookingDisplayMatch r date b
  | none => false

/-- `getRoomStatus` (RoomCalendar.tsx 263-277): an override for
`(roomId, date)` is returned verbatim; otherwise the bookings are scanned and
the first match makes the room `occupied`, else it is `available`. -/
def getRoomStatus (rooms : List Room) (availability : List RoomAvailability)
    (bookings : List Booking) (roomId date : String) : RoomStatus :=
  match getAvailabilityForDate availability roomId date with
  | some a => a.status
  | none =>
    match bookings.find? (bookingOccupies rooms roomId date) with
    | some _ => RoomStatus.occupied
    | none => RoomStatus.available

/-- `getBookingForDate` (RoomCalendar.tsx 283-292): `null` when the room id is
unknown, otherwise the first booking matching the room's type and covering the
date. -/
def getBookingForDate (rooms : List Room) (bookings : List Booking)
    (roomId date : String) : Option Booking :=
  match rooms.find? (fun r => r.id == roomId) with
  | none => none
  | some room => bookings.find? (bookingDisplayMatch room date)

/-- `fetchBookings` (RoomCalendar.tsx 165-180): the calendar loads only
bookings with `status IN ('confirmed','checked_in')` from the table. -/
def fetchBookings (allBookings : List Booking) : List Booking :=
  allBookings.filter
    (fun b => b.status == BookingStatus.confirmed
      || b.status == BookingStatus.checked_in)

/-- `deleteRoom` (RoomCalendar.tsx 242-261): `UPDATE rooms SET is_active=false
WHERE id = roomId` — a soft delete, no row is removed. -/
def deleteRoom (roomsTable : List Room) (roomId : String) : List Room :=
  roomsTable.map (fun r =>
    if r.id == roomId then { r with is_active := false } else r)

/-- `updateBookingStatus` (EditTransactionDialog.tsx 484-501):
`UPDATE bookings SET status = newStatus WHERE id = id`, with no transition
validation of any kind. -/
def updateBookingStatus (bookingsTable : List Booking) (id : String)
    (newStatus : BookingStatus) : List Booking :=
  bookingsTable.map (fun b =>
    if b.id == id then { b with status := newStatus } else b)

/-- The booking form state of EditTransactionDialog.tsx (lines 279-289).  The
source keeps the numeric fields as text-input strings and parses them with
`parseInt` / `parseFloat` at submit time; the claims under study never touch
numeric parsing, so the model carries those fields already parsed. -/
structure BookingForm where
  customer_id : String
  check_in : String
  check_out : String
  room_type : String
  guests : Nat
  total_amount : Nat
  advance_paid : Nat
  status : BookingStatus
  special_requests : String
deriving DecidableEq, Repr

/-- The `bookingData` record built by `handleBookingSubmit`
(EditTransactionDialog.tsx 398-408), given a fresh row id for the insert
path (`special_requests || null` maps the empty string to NULL). -/
def mkBookingRow (newId : String) (form : BookingForm) : Booking :=
  { id := newId
    customer_id := form.customer_id
    check_in := form.check_in
    check_out := form.check_out
    room_type := form.room_type
    guests := form.guests
    total_amount := form.total_amount
    advance_paid := form.advance_paid
    status := form.status
    special_requests :=
      if form.special_requests == "" then none else some form.special_requests }

/-- The `.update(bookingData).eq('id', ...)` path of `handleBookingSubmit`
(EditTransactionDialog.tsx 410-421): every `bookingData` column of the
matched row is replaced, the id is kept. -/
def applyBookingForm (form : BookingForm) (b : Booking) : Booking :=
  { b with
    customer_id := form.customer_id
    check_in := form.check_in
    check_out := form.check_out
    room_type := form.room_type
    guests := form.guests
    total_amount := form.total_amount
    advance_paid := form.advance_paid
    status := form.status
    special_requests :=
      if form.special_requests == "" then none else some form.special_requests }

/-- `handleBookingSubmit` (EditTransactionDialog.tsx 389-440): the only
validation is that `customer_id`, `check_in`, `check_out` and `room_type` are
non-empty (JavaScript truthiness of the form strings); nothing compares
`check_in` with `check_out`.  `none` models the early return ("Please fill in
all required fields") where nothing is persisted; `some` carries the updated
bookings table (update path when a booking is being edited, insert path
otherwise). -/
def handleBookingSubmit (editingBooking : Option String) (form : BookingForm)
    (table : List Booking) (newId : String) : Option (List Booking) :=
  if form.customer_id == "" || form.check_in == "" || form.check_out == ""
      || form.room_type == "" then
    none
  else
    match editingBooking with
    | some eid =>
      some (table.map (fun b =>
        if b.id == eid then applyBookingForm form b else b))
    | none => some (table ++ [mkBookingRow newId form])

/-- Modelled from the spec: `updateRoomStatus` (RoomCalendar.tsx 215-240)
issues `supabase.from('room_availability').upsert({room_id, date, status,
notes})`; the conflict resolution itself happens inside the external
datastore against `UNIQUE(room_id, date)` (migration 20250629144705) and is
not code under src/.  Per the spec, "Writing an override for (room_id, date)
is an upsert keyed by that pair (last write wins; overwrites previous
override for the same date)".  On the insert path the row receives a fresh id
and no booking_id; on the update path only the status and notes columns are
replaced. -/
def updateRoomStatus (table : List RoomAvailability)
    (newId roomId date : String) (status : RoomStatus)
    (notes : Option String) : List RoomAvailability :=
  if table.any (fun o => o.room_id == roomId && o.date == date) then
    table.map (fun o =>
      if o.room_id == roomId && o.date == date then
        { o with status := status, notes := notes }
      else o)
  else
    table ++ [{ id := newId, room_id := roomId, date := date, status := status,
                booking_id := none, notes := notes }]

section Helpers

/-- `find?` returns the first element satisfying the predicate: the list
splits at the returned element and everything before it fails the
predicate. -/
lemma find?_first {α : Type} (p : α → Bool) :
    ∀ (l : List α) (b : α), l.find? p = some b →
      ∃ l1 l2, l = l1 ++ b :: l2 ∧ p b = true ∧ ∀ x ∈ l1, p x = false := by
  intro l
  induction l with
  | nil => intro b h; simp [List.find?] at h
  | cons a t ih =>
    intro b h
    by_cases ha : p a
    · rw [List.find?_cons_of_pos _ ha] at h
      obtain rfl : a = b := by injection h
      exact ⟨[], t, rfl, ha, by simp⟩
    · rw [List.find?_cons_of_neg _ (by simpa using ha)] at h
      obtain ⟨l1, l2, hsplit, hb, hfail⟩ := ih b h
      refine ⟨a :: l1, l2, by simp [hsplit], hb, ?_⟩
      intro x hx
      rcases List.mem_cons.mp hx with rfl | hx
      · simpa using ha
      · exact hfail x hx

/-- Removing an element that fails the predicate does not change `find?`. -/
lemma find?_append_cons_of_neg {α : Type} (p : α → Bool) (b : α)
    (hb : p b = false) :
    ∀ (l1 l2 : List α), (l1 ++ b :: l2).find? p = (l1 ++ l2).find? p := by
  intro l1
  induction l1 with
  | nil => intro l2; simpa using List.find?_cons_of_neg l2 (by simp [hb])
  | cons a t ih =>
    intro l2
    by_cases ha : p a
    · simp [List.find?_cons_of_pos _ ha]
    · rw [List.cons_append, List.cons_append,
        List.find?_cons_of_neg _ (by simpa using ha),
        List.find?_cons_of_neg _ (by simpa using ha)]
      exact ih l2

/-- Once the room id has been resolved, the occupancy predicate of
`getRoomStatus` is exactly the display predicate of `getBookingForDate`. -/
lemma bookingOccupies_eq (rooms : List Room) (roomId date : String)
    (room : Room) (hroom : rooms.find? (fun r => r.id == roomId) = some room) :
    bookingOccupies rooms roomId date = bookingDisplayMatch room date := by
  funext b
  unfold bookingOccupies
  rw [hroom]

/-- A cancelled booking fails the display predicate for any room and date. -/
lemma bookingDisplayMatch_cancelled (room : Room) (date : String) (b : Booking)
    (hb : b.status = BookingStatus.cancelled) :
    bookingDisplayMatch room date b = false := by
  simp [bookingDisplayMatch, hb]

/-- A cancelled booking fails the occupancy predicate for any room and date. -/
lemma bookingOccupies_cancelled (rooms : List Room) (roomId date : String)
    (b : Booking) (hb : b.status = BookingStatus.cancelled) :
    bookingOccupies rooms roomId date b = false := by
  unfold bookingOccupies
  cases rooms.find? (fun r => r.id == roomId) with
  | none => rfl
  | some r => exact bookingDisplayMatch_cancelled r date b hb

/-- How one upsert transforms the set of override rows keyed by
`(roomId, date)`: existing rows for the pair get the new status and notes,
and when no row for the pair existed the fresh row is appended. -/
lemma filter_upsert (table : List RoomAvailability) (newId roomId date : String)
    (s : RoomStatus) (n : Option String) :
    (updateRoomStatus table newId roomId date s n).filter
        (fun o => o.room_id == roomId && o.date == date) =
      (table.filter (fun o => o.room_id == roomId && o.date == date)).map
          (fun o => { o with status := s, notes := n })
        ++ (if table.any (fun o => o.room_id == roomId && o.date == date)
            then []
            else [{ id := newId, room_id := roomId, date := date, status := s,
                    booking_id := none, notes := n }]) := by
  unfold updateRoomStatus
  by_cases h : table.any (fun o => o.room_id == roomId && o.date == date)
  · rw [if_pos h, if_pos h, List.append_nil, List.filter_map]
    have hcomp :
        ((fun o : RoomAvailability => o.room_id == roomId && o.date == date) ∘
          (fun o => if o.room_id == roomId && o.date == date then
            { o with status := s, notes := n } else o))
        = (fun o : RoomAvailability => o.room_id == roomId && o.date == date) := by
      funext o
      cases hpo : (o.room_id == roomId && o.date == date) <;>
        simp [Function.comp, hpo]
    rw [hcomp]
    apply List.map_congr_left
    intro o ho
    simp [(List.mem_filter.mp ho).2]
  · rw [if_neg h, if_neg h, List.filter_append]
    have hnil : table.filter (fun o => o.room_id == roomId && o.date == date)
        = [] := by
      rw [List.filter_eq_nil_iff]
      intro o ho
      exact fun hpo => h (List.any_eq_true.mpr ⟨o, ho, hpo⟩)
    rw [hnil]
    simp

/-- Anything in the bookings table that fails the display predicate can be
dropped without changing `getRoomStatus`'s booking scan. -/
lemma getRoomStatus_drop (rooms : List Room)
    (availability : List RoomAvailability) (l1 l2 : List Booking) (b : Booking)
    (roomId date : String)
    (hocc : bookingOccupies rooms roomId date b = false) :
    getRoomStatus rooms availability (l1 ++ b :: l2) roomId date
      = getRoomStatus rooms availability (l1 ++ l2) roomId date := by
  unfold getRoomStatus
  rw [find?_append_cons_of_neg (bookingOccupies rooms roomId date) b hocc l1 l2]

/-- After an upsert there is always a row for the `(roomId, date)` pair. -/
lemma any_upsert (table : List RoomAvailability) (newId roomId date : String)
    (s : RoomStatus) (n : Option String) :
    (updateRoomStatus table newId roomId date s n).any
      (fun o => o.room_id == roomId && o.date == date) = true := by
  unfold updateRoomStatus
  by_cases h : table.any (fun o => o.room_id == roomId && o.date == date)
  · rw [if_pos h]
    rw [List.any_eq_true] at h ⊢
    obtain ⟨o, ho, hpo⟩ := h
    exact ⟨_, List.mem_map.mpr ⟨o, ho, rfl⟩, by simp [hpo]⟩
  · rw [if_neg h, List.any_eq_true]
    exact ⟨_, List.mem_append_right _ (List.mem_singleton.mpr rfl), by simp⟩

end Helpers

/-- Claim C1: an explicit override for `(room.id, date)` always wins — when
the override list contains a record for the pair (records are unique per
pair, matching `UNIQUE(room_id, date)` in the schema), `getRoomStatus`
returns that override's status verbatim, regardless of the contents of the
booking list. -/
theorem C1_override_wins (rooms : List Room)
    (availability : List RoomAvailability) (bookings : List Booking)
    (roomId date : String) (o : RoomAvailability)
    (ho : o ∈ availability) (hid : o.room_id = roomId) (hdate : o.date = date)
    (huniq : ∀ o' ∈ availability, o'.room_id = roomId → o'.date = date →
      o' = o) :
    getRoomStatus rooms availability bookings roomId date = o.status := by
  have hsome : (getAvailabilityForDate availability roomId date).isSome := by
    unfold getAvailabilityForDate
    rw [List.find?_isSome]
    exact ⟨o, ho, by simp [hid, hdate]⟩
  obtain ⟨o', hfind⟩ := Option.isSome_iff_exists.mp hsome
  have hfind' := hfind
  unfold getAvailabilityForDate at hfind'
  have hmem := List.mem_of_find?_eq_some hfind'
  have hp := List.find?_some hfind'
  simp only [Bool.and_eq_true, beq_iff_eq] at hp
  have heq : o' = o := huniq o' hmem hp.1 hp.2
  unfold getRoomStatus
  rw [hfind]
  show o'.status = o.status
  rw [heq]

/-- Witness for C1: a maintenance override on a date that a confirmed
booking covers; the override's status is returned. -/
theorem C1_override_wins_witness :
    getRoomStatus
      [⟨"r1", "101", "Standard Room", 2, 2500, [], none, true⟩]
      [⟨"a1", "r1", "2024-06-01", RoomStatus.maintenance, none, none⟩]
      [⟨"b1", "c1", "2024-06-01", "2024-06-03", "Standard Room", 2, 0, 0,
        BookingStatus.confirmed, none⟩]
      "r1" "2024-06-01" = RoomStatus.maintenance :=
  C1_override_wins
    [⟨"r1", "101", "Standard Room", 2, 2500, [], none, true⟩]
    [⟨"a1", "r1", "2024-06-01", RoomStatus.maintenance, none, none⟩]
    [⟨"b1", "c1", "2024-06-01", "2024-06-03", "Standard Room", 2, 0, 0,
      BookingStatus.confirmed, none⟩]
    "r1" "2024-06-01"
    ⟨"a1", "r1", "2024-06-01", RoomStatus.maintenance, none, none⟩
    (by decide) rfl rfl (by decide)

/-- Claim C5: a cancelled booking never makes a room occupied — resolving
with a cancelled booking anywhere in the list gives the same effective
status and the same surfaced booking as resolving with it removed, and when
additionally no override exists and nothing else in the list occupies the
room, the status is available. -/
theorem C5_cancelled_inert (rooms : List Room)
    (availability : List RoomAvailability) (l1 l2 : List Booking) (b : Booking)
    (hb : b.status = BookingStatus.cancelled) (roomId date : String) :
    getRoomStatus rooms availability (l1 ++ b :: l2) roomId date
      = getRoomStatus rooms availability (l1 ++ l2) roomId date
    ∧ getBookingForDate rooms (l1 ++ b :: l2) roomId date
      = getBookingForDate rooms (l1 ++ l2) roomId date
    ∧ (getAvailabilityForDate availability roomId date = none →
        (∀ b' ∈ l1 ++ l2, bookingOccupies rooms roomId date b' = false) →
        getRoomStatus rooms availability (l1 ++ b :: l2) roomId date
          = RoomStatus.available) := by
  have hocc : bookingOccupies rooms roomId date b = false :=
    bookingOccupies_cancelled rooms roomId date b hb
  refine ⟨getRoomStatus_drop rooms availability l1 l2 b roomId date hocc,
    ?_, ?_⟩
  · unfold getBookingForDate
    cases hr : rooms.find? (fun r => r.id == roomId) with
    | none => rfl
    | some room =>
      exact find?_append_cons_of_neg (bookingDisplayMatch room date) b
        (bookingDisplayMatch_cancelled room date b hb) l1 l2
  · intro hno hrest
    rw [getRoomStatus_drop rooms availability l1 l2 b roomId date hocc]
    unfold getRoomStatus
    rw [hno, List.find?_eq_none.mpr (fun b' hb' => by simp [hrest b' hb'])]

/-- Witness for C5: a cancelled booking covering the date changes nothing;
with no override and no other booking the room is available. -/
theorem C5_cancelled_inert_witness :
    getRoomStatus
      [⟨"r1", "101", "Standard Room", 2, 2500, [], none, true⟩] []
      ([] ++ (⟨"b1", "c1", "2024-06-01", "2024-06-03", "Standard Room", 2, 0,
        0, BookingStatus.cancelled, none⟩ : Booking) :: [])
      "r1" "2024-06-02"
      = getRoomStatus
        [⟨"r1", "101", "Standard Room", 2, 2500, [], none, true⟩] []
        ([] ++ []) "r1" "2024-06-02"
    ∧ getBookingForDate
        [⟨"r1", "101", "Standard Room", 2, 2500, [], none, true⟩]
        ([] ++ (⟨"b1", "c1", "2024-06-01", "2024-06-03", "Standard Room", 2,
          0, 0, BookingStatus.cancelled, none⟩ : Booking) :: [])
        "r1" "2024-06-02"
      = getBookingForDate
          [⟨"r1", "101", "Standard Room", 2, 2500, [], none, true⟩]
          ([] ++ []) "r1" "2024-06-02"
    ∧ (getAvailabilityForDate [] "r1" "2024-06-02" = none →
        (∀ b' ∈ ([] ++ [] : List Booking),
          bookingOccupies
            [⟨"r1", "101", "Standard Room", 2, 2500, [], none, true⟩]
            "r1" "2024-06-02" b' = false) →
        getRoomStatus
          [⟨"r1", "101", "Standard Room", 2, 2500, [], none, true⟩] []
          ([] ++ (⟨"b1", "c1", "2024-06-01", "2024-06-03", "Standard Room", 2,
            0, 0, BookingStatus.cancelled, none⟩ : Booking) :: [])
          "r1" "2024-06-02" = RoomStatus.available) :=
  C5_cancelled_inert
    [⟨"r1", "101", "Standard Room", 2, 2500, [], none, true⟩] [] [] []
    ⟨"b1", "c1", "2024-06-01", "2024-06-03", "Standard Room", 2, 0, 0,
      BookingStatus.cancelled, none⟩
    rfl "r1" "2024-06-02"

/-- Claim C6: with no override for `(room.id, date)` and no non-cancelled
booking of the room's type covering the date, `getRoomStatus` returns
available. -/
theorem C6_no_override_no_booking (rooms : List Room)
    (availability : List RoomAvailability) (bookings : List Booking)
    (roomId date : String) (room : Room)
    (hroom : rooms.find? (fun r => r.id == roomId) = some room)
    (hno : getAvailabilityForDate availability roomId date = none)
    (hcov : ∀ b ∈ bookings, b.status ≠ BookingStatus.cancelled →
      b.room_type = room.room_type →
      ¬(strGe date b.check_in = true ∧ strLt date b.check_out = true)) :
    getRoomStatus rooms availability bookings roomId date
      = RoomStatus.available := by
  have hnone : bookings.find? (bookingDisplayMatch room date) = none := by
    rw [List.find?_eq_none]
    intro b hbmem hmatch
    simp only [bookingDisplayMatch, Bool.and_eq_true, beq_iff_eq,
      bne_iff_ne] at hmatch
    obtain ⟨⟨⟨h1, h2⟩, h3⟩, h4⟩ := hmatch
    exact hcov b hbmem h4 h1 ⟨h2, h3⟩
  unfold getRoomStatus
  rw [hno, bookingOccupies_eq rooms roomId date room hroom, hnone]

/-- Witness for C6: one booking of a different type, one whose range ends
before the date; the room is available. -/
theorem C6_no_override_no_booking_witness :
    getRoomStatus
      [⟨"r1", "101", "Standard Room", 2, 2500, [], none, true⟩] []
      [⟨"b1", "c1", "2024-06-01", "2024-06-09", "Suite", 2, 0, 0,
        BookingStatus.confirmed, none⟩,
       ⟨"b2", "c2", "2024-06-01", "2024-06-03", "Standard Room", 2, 0, 0,
        BookingStatus.confirmed, none⟩]
      "r1" "2024-06-05" = RoomStatus.available :=
  C6_no_override_no_booking
    [⟨"r1", "101", "Standard Room", 2, 2500, [], none, true⟩] []
    [⟨"b1", "c1", "2024-06-01", "2024-06-09", "Suite", 2, 0, 0,
      BookingStatus.confirmed, none⟩,
     ⟨"b2", "c2", "2024-06-01", "2024-06-03", "Standard Room", 2, 0, 0,
      BookingStatus.confirmed, none⟩]
    "r1" "2024-06-05"
    ⟨"r1", "101", "Standard Room", 2, 2500, [], none, true⟩
    rfl rfl (by decide)

/-- Claim C8: deleting a room is a soft delete — no row is removed, the
targeted room keeps every field except `is_active`, which becomes false,
and every other room is unchanged. -/
theorem C8_soft_delete (table : List Room) (roomId : String) :
    (deleteRoom table roomId).length = table.length
    ∧ (∀ r ∈ table, r.id = roomId →
        ({ r with is_active := false } : Room) ∈ deleteRoom table roomId)
    ∧ (∀ r ∈ table, r.id ≠ roomId → r ∈ deleteRoom table roomId) := by
  refine ⟨by simp [deleteRoom], ?_, ?_⟩
  · intro r hr hid
    exact List.mem_map.mpr ⟨r, hr, by simp [hid]⟩
  · intro r hr hid
    exact List.mem_map.mpr ⟨r, hr, by simp [hid]⟩

/-- Witness for C8: deleting room r1 keeps both rooms, deactivates r1 with
all other fields intact, and leaves r2 untouched. -/
theorem C8_soft_delete_witness :
    (deleteRoom
        [⟨"r1", "101", "Standard Room", 2, 2500, ["AC"], none, true⟩,
         ⟨"r2", "102", "Deluxe Room", 3, 3500, [], none, true⟩]
        "r1").length = 2
    ∧ (⟨"r1", "101", "Standard Room", 2, 2500, ["AC"], none, false⟩ : Room) ∈
        deleteRoom
          [⟨"r1", "101", "Standard Room", 2, 2500, ["AC"], none, true⟩,
           ⟨"r2", "102", "Deluxe Room", 3, 3500, [], none, true⟩]
          "r1"
    ∧ (⟨"r2", "102", "Deluxe Room", 3, 3500, [], none, true⟩ : Room) ∈
        deleteRoom
          [⟨"r1", "101", "Standard Room", 2, 2500, ["AC"], none, true⟩,
           ⟨"r2", "102", "Deluxe Room", 3, 3500, [], none, true⟩]
          "r1" :=
  ⟨(C8_soft_delete
      [⟨"r1", "101", "Standard Room", 2, 2500, ["AC"], none, true⟩,
       ⟨"r2", "102", "Deluxe Room", 3, 3500, [], none, true⟩] "r1").1,
   (C8_soft_delete
      [⟨"r1", "101", "Standard Room", 2, 2500, ["AC"], none, true⟩,
       ⟨"r2", "102", "Deluxe Room", 3, 3500, [], none, true⟩] "r1").2.1
     ⟨"r1", "101", "Standard Room", 2, 2500, ["AC"], none, true⟩
     (by decide) rfl,
   (C8_soft_delete
      [⟨"r1", "101", "Standard Room", 2, 2500, ["AC"], none, true⟩,
       ⟨"r2", "102", "Deluxe Room", 3, 3500, [], none, true⟩] "r1").2.2
     ⟨"r2", "102", "Deluxe Room", 3, 3500, [], none, true⟩
     (by decide) (by decide)⟩

/-- Claim C2: with no override for the pair, the effective status is
occupied exactly when some booking in the table whose status is confirmed or
checked_in matches the room's type and covers the date in the half-open
interval `[check_in, check_out)`; this is also exactly when
`getBookingForDate` surfaces a booking, and any surfaced booking is such a
covering booking. -/
theorem C2_occupied_iff (rooms : List Room)
    (availability : List RoomAvailability) (allBookings : List Booking)
    (roomId date : String) (room : Room)
    (hroom : rooms.find? (fun r => r.id == roomId) = some room)
    (hno : getAvailabilityForDate availability roomId date = none) :
    (getRoomStatus rooms availability (fetchBookings allBookings) roomId date
        = RoomStatus.occupied ↔
      ∃ b ∈ allBookings,
        (b.status = BookingStatus.confirmed
          ∨ b.status = BookingStatus.checked_in)
        ∧ b.room_type = room.room_type
        ∧ strGe date b.check_in = true ∧ strLt date b.check_out = true)
    ∧ (∀ b, getBookingForDate rooms (fetchBookings allBookings) roomId date
          = some b →
        b ∈ allBookings
        ∧ (b.status = BookingStatus.confirmed
            ∨ b.status = BookingStatus.checked_in)
        ∧ b.room_type = room.room_type
        ∧ strGe date b.check_in = true ∧ strLt date b.check_out = true)
    ∧ (getRoomStatus rooms availability (fetchBookings allBookings) roomId
          date = RoomStatus.occupied ↔
        (getBookingForDate rooms (fetchBookings allBookings) roomId
          date).isSome = true) := by
  have hgrs : getRoomStatus rooms availability (fetchBookings allBookings)
      roomId date
      = match (fetchBookings allBookings).find?
          (bookingDisplayMatch room date) with
        | some _ => RoomStatus.occupied
        | none => RoomStatus.available := by
    unfold getRoomStatus
    rw [hno, bookingOccupies_eq rooms roomId date room hroom]
  have hgbfd : getBookingForDate rooms (fetchBookings allBookings) roomId date
      = (fetchBookings allBookings).find? (bookingDisplayMatch room date) := by
    unfold getBookingForDate
    rw [hroom]
  have hiff : getRoomStatus rooms availability (fetchBookings allBookings)
      roomId date = RoomStatus.occupied ↔
      ((fetchBookings allBookings).find?
        (bookingDisplayMatch room date)).isSome = true := by
    rw [hgrs]
    cases hfind : (fetchBookings allBookings).find?
      (bookingDisplayMatch room date) <;> simp
  have hchar : ∀ b : Booking,
      (b ∈ fetchBookings allBookings ∧ bookingDisplayMatch room date b = true)
      ↔ (b ∈ allBookings
        ∧ (b.status = BookingStatus.confirmed
            ∨ b.status = BookingStatus.checked_in)
        ∧ b.room_type = room.room_type
        ∧ strGe date b.check_in = true ∧ strLt date b.check_out = true) := by
    intro b
    constructor
    · rintro ⟨hbf, hmatch⟩
      obtain ⟨hmem, hstat⟩ := List.mem_filter.mp hbf
      simp only [Bool.or_eq_true, beq_iff_eq] at hstat
      simp only [bookingDisplayMatch, Bool.and_eq_true, beq_iff_eq,
        bne_iff_ne] at hmatch
      obtain ⟨⟨⟨h1, h2⟩, h3⟩, _⟩ := hmatch
      exact ⟨hmem, hstat, h1, h2, h3⟩
    · rintro ⟨hmem, hstat, h1, h2, h3⟩
      refine ⟨List.mem_filter.mpr ⟨hmem, ?_⟩, ?_⟩
      · simp only [Bool.or_eq_true, beq_iff_eq]
        exact hstat
      · simp only [bookingDisplayMatch, Bool.and_eq_true, beq_iff_eq,
          bne_iff_ne]
        refine ⟨⟨⟨h1, h2⟩, h3⟩, ?_⟩
        rcases hstat with h | h <;> simp [h]
  refine ⟨?_, ?_, ?_⟩
  · rw [hiff, List.find?_isSome]
    constructor
    · rintro ⟨b, hbf, hmatch⟩
      obtain ⟨hm, hrest⟩ := (hchar b).mp ⟨hbf, hmatch⟩
      exact ⟨b, hm, hrest⟩
    · rintro ⟨b, hm, hrest⟩
      obtain ⟨hbf, hmatch⟩ := (hchar b).mpr ⟨hm, hrest⟩
      exact ⟨b, hbf, hmatch⟩
  · intro b hb
    rw [hgbfd] at hb
    exact (hchar b).mp ⟨List.mem_of_find?_eq_some hb, List.find?_some hb⟩
  · rw [hiff, hgbfd]

/-- Witness for C2: a checked_in booking of the room's type covering the
date makes the room occupied and is surfaced; a checked_out booking in the
raw table does not count. -/
theorem C2_occupied_iff_witness :
    (getRoomStatus
        [⟨"r1", "101", "Standard Room", 2, 2500, [], none, true⟩] []
        (fetchBookings
          [⟨"b0", "c0", "2024-06-01", "2024-06-03", "Standard Room", 2, 0, 0,
            BookingStatus.checked_out, none⟩,
           ⟨"b1", "c1", "2024-06-01", "2024-06-03", "Standard Room", 2, 0, 0,
            BookingStatus.checked_in, none⟩])
        "r1" "2024-06-02" = RoomStatus.occupied ↔
      ∃ b ∈ [⟨"b0", "c0", "2024-06-01", "2024-06-03", "Standard Room", 2, 0,
            0, BookingStatus.checked_out, none⟩,
          (⟨"b1", "c1", "2024-06-01", "2024-06-03", "Standard Room", 2, 0, 0,
            BookingStatus.checked_in, none⟩ : Booking)],
        (b.status = BookingStatus.confirmed
          ∨ b.status = BookingStatus.checked_in)
        ∧ b.room_type = "Standard Room"
        ∧ strGe "2024-06-02" b.check_in = true
        ∧ strLt "2024-06-02" b.check_out = true)
    ∧ (∀ b, getBookingForDate
          [⟨"r1", "101", "Standard Room", 2, 2500, [], none, true⟩]
          (fetchBookings
            [⟨"b0", "c0", "2024-06-01", "2024-06-03", "Standard Room", 2, 0,
              0, BookingStatus.checked_out, none⟩,
             ⟨"b1", "c1", "2024-06-01", "2024-06-03", "Standard Room", 2, 0,
              0, BookingStatus.checked_in, none⟩])
          "r1" "2024-06-02" = some b →
        b ∈ [⟨"b0", "c0", "2024-06-01", "2024-06-03", "Standard Room", 2, 0,
            0, BookingStatus.checked_out, none⟩,
          (⟨"b1", "c1", "2024-06-01", "2024-06-03", "Standard Room", 2, 0, 0,
            BookingStatus.checked_in, none⟩ : Booking)]
        ∧ (b.status = BookingStatus.confirmed
            ∨ b.status = BookingStatus.checked_in)
        ∧ b.room_type = "Standard Room"
        ∧ strGe "2024-06-02" b.check_in = true
        ∧ strLt "2024-06-02" b.check_out = true)
    ∧ (getRoomStatus
          [⟨"r1", "101", "Standard Room", 2, 2500, [], none, true⟩] []
          (fetchBookings
            [⟨"b0", "c0", "2024-06-01", "2024-06-03", "Standard Room", 2, 0,
              0, BookingStatus.checked_out, none⟩,
             ⟨"b1", "c1", "2024-06-01", "2024-06-03", "Standard Room", 2, 0,
              0, BookingStatus.checked_in, none⟩])
          "r1" "2024-06-02" = RoomStatus.occupied ↔
        (getBookingForDate
          [⟨"r1", "101", "Standard Room", 2, 2500, [], none, true⟩]
          (fetchBookings
            [⟨"b0", "c0", "2024-06-01", "2024-06-03", "Standard Room", 2, 0,
              0, BookingStatus.checked_out, none⟩,
             ⟨"b1", "c1", "2024-06-01", "2024-06-03", "Standard Room", 2, 0,
              0, BookingStatus.checked_in, none⟩])
          "r1" "2024-06-02").isSome = true) :=
  C2_occupied_iff
    [⟨"r1", "101", "Standard Room", 2, 2500, [], none, true⟩] []
    [⟨"b0", "c0", "2024-06-01", "2024-06-03", "Standard Room", 2, 0, 0,
      BookingStatus.checked_out, none⟩,
     ⟨"b1", "c1", "2024-06-01", "2024-06-03", "Standard Room", 2, 0, 0,
      BookingStatus.checked_in, none⟩]
    "r1" "2024-06-02"
    ⟨"r1", "101", "Standard Room", 2, 2500, [], none, true⟩
    rfl rfl

/-- Claim C9: `getRoomStatus` and `getBookingForDate` are pure functions of
their inputs — equal inputs give equal outputs — and the surfaced booking is
deterministic: it is the first booking in input list order satisfying the
match predicate. -/
theorem C9_pure_first_match (rooms rooms2 : List Room)
    (availability availability2 : List RoomAvailability)
    (bookings bookings2 : List Booking) (roomId roomId2 date date2 : String)
    (h1 : rooms = rooms2) (h2 : availability = availability2)
    (h3 : bookings = bookings2) (h4 : roomId = roomId2) (h5 : date = date2) :
    (getRoomStatus rooms availability bookings roomId date
        = getRoomStatus rooms2 availability2 bookings2 roomId2 date2
      ∧ getBookingForDate rooms bookings roomId date
        = getBookingForDate rooms2 bookings2 roomId2 date2)
    ∧ (∀ b, getBookingForDate rooms bookings roomId date = some b →
        ∃ room l1 l2, rooms.find? (fun r => r.id == roomId) = some room
          ∧ bookings = l1 ++ b :: l2
          ∧ bookingDisplayMatch room date b = true
          ∧ ∀ b' ∈ l1, bookingDisplayMatch room date b' = false) := by
  subst h1 h2 h3 h4 h5
  refine ⟨⟨rfl, rfl⟩, ?_⟩
  intro b hb
  unfold getBookingForDate at hb
  cases hr : rooms.find? (fun r => r.id == roomId) with
  | none => rw [hr] at hb; exact absurd hb (by simp)
  | some room =>
    rw [hr] at hb
    obtain ⟨l1, l2, hsplit, hmatch, hfail⟩ :=
      find?_first (bookingDisplayMatch room date) bookings b hb
    exact ⟨room, l1, l2, rfl, hsplit, hmatch, hfail⟩

/-- Witness for C9: two identical runs agree, and the surfaced booking of a
two-match list is the first one. -/
theorem C9_pure_first_match_witness :
    (getRoomStatus [⟨"r", "101", "S", 2, 0, [], none, true⟩] []
        [⟨"b1", "c", "a", "c", "S", 1, 0, 0, BookingStatus.confirmed, none⟩,
         ⟨"b2", "c", "a", "c", "S", 1, 0, 0, BookingStatus.confirmed, none⟩]
        "r" "b"
      = getRoomStatus [⟨"r", "101", "S", 2, 0, [], none, true⟩] []
        [⟨"b1", "c", "a", "c", "S", 1, 0, 0, BookingStatus.confirmed, none⟩,
         ⟨"b2", "c", "a", "c", "S", 1, 0, 0, BookingStatus.confirmed, none⟩]
        "r" "b"
      ∧ getBookingForDate [⟨"r", "101", "S", 2, 0, [], none, true⟩]
        [⟨"b1", "c", "a", "c", "S", 1, 0, 0, BookingStatus.confirmed, none⟩,
         ⟨"b2", "c", "a", "c", "S", 1, 0, 0, BookingStatus.confirmed, none⟩]
        "r" "b"
      = getBookingForDate [⟨"r", "101", "S", 2, 0, [], none, true⟩]
        [⟨"b1", "c", "a", "c", "S", 1, 0, 0, BookingStatus.confirmed, none⟩,
         ⟨"b2", "c", "a", "c", "S", 1, 0, 0, BookingStatus.confirmed, none⟩]
        "r" "b")
    ∧ (∀ b, getBookingForDate [⟨"r", "101", "S", 2, 0, [], none, true⟩]
        [⟨"b1", "c", "a", "c", "S", 1, 0, 0, BookingStatus.confirmed, none⟩,
         ⟨"b2", "c", "a", "c", "S", 1, 0, 0, BookingStatus.confirmed, none⟩]
        "r" "b" = some b →
        ∃ room l1 l2,
          ([⟨"r", "101", "S", 2, 0, [], none, true⟩] : List Room).find?
              (fun r => r.id == "r") = some room
          ∧ ([⟨"b1", "c", "a", "c", "S", 1, 0, 0, BookingStatus.confirmed,
                none⟩,
              (⟨"b2", "c", "a", "c", "S", 1, 0, 0, BookingStatus.confirmed,
                none⟩ : Booking)]) = l1 ++ b :: l2
          ∧ bookingDisplayMatch room "b" b = true
          ∧ ∀ b' ∈ l1, bookingDisplayMatch room "b" b' = false) :=
  C9_pure_first_match
    [⟨"r", "101", "S", 2, 0, [], none, true⟩]
    [⟨"r", "101", "S", 2, 0, [], none, true⟩] [] []
    [⟨"b1", "c", "a", "c", "S", 1, 0, 0, BookingStatus.confirmed, none⟩,
     ⟨"b2", "c", "a", "c", "S", 1, 0, 0, BookingStatus.confirmed, none⟩]
    [⟨"b1", "c", "a", "c", "S", 1, 0, 0, BookingStatus.confirmed, none⟩,
     ⟨"b2", "c", "a", "c", "S", 1, 0, 0, BookingStatus.confirmed, none⟩]
    "r" "r" "b" "b" rfl rfl rfl rfl rfl

/-- Claim C10: `getBookingForDate` ignores overrides entirely — with a
non-occupied override in force for `(room.id, date)` and a covering
non-cancelled booking of the room's type in the list, the effective status
is the override's (not occupied) while a covering booking is still
surfaced. -/
theorem C10_surfaced_despite_override (rooms : List Room)
    (availability : List RoomAvailability) (bookings : List Booking)
    (roomId date : String) (room : Room) (o : RoomAvailability) (b : Booking)
    (hroom : rooms.find? (fun r => r.id == roomId) = some room)
    (ho : getAvailabilityForDate availability roomId date = some o)
    (hnotocc : o.status ≠ RoomStatus.occupied)
    (hb : b ∈ bookings) (hbt : b.room_type = room.room_type)
    (hci : strGe date b.check_in = true) (hco : strLt date b.check_out = true)
    (hbs : b.status ≠ BookingStatus.cancelled) :
    getRoomStatus rooms availability bookings roomId date = o.status
    ∧ getRoomStatus rooms availability bookings roomId date
        ≠ RoomStatus.occupied
    ∧ (getBookingForDate rooms bookings roomId date).isSome = true
    ∧ ∀ b', getBookingForDate rooms bookings roomId date = some b' →
        b' ∈ bookings ∧ b'.room_type = room.room_type
        ∧ strGe date b'.check_in = true ∧ strLt date b'.check_out = true
        ∧ b'.status ≠ BookingStatus.cancelled := by
  have hstat : getRoomStatus rooms availability bookings roomId date
      = o.status := by
    unfold getRoomStatus
    rw [ho]
  have hgbfd : getBookingForDate rooms bookings roomId date
      = bookings.find? (bookingDisplayMatch room date) := by
    unfold getBookingForDate
    rw [hroom]
  have hpb : bookingDisplayMatch room date b = true := by
    simp only [bookingDisplayMatch, Bool.and_eq_true, beq_iff_eq, bne_iff_ne]
    exact ⟨⟨⟨hbt, hci⟩, hco⟩, hbs⟩
  refine ⟨hstat, by rw [hstat]; exact hnotocc, ?_, ?_⟩
  · rw [hgbfd]
    exact List.find?_isSome.mpr ⟨b, hb, hpb⟩
  · intro b' hb'
    rw [hgbfd] at hb'
    have hmem := List.mem_of_find?_eq_some hb'
    have hp := List.find?_some hb'
    simp only [bookingDisplayMatch, Bool.and_eq_true, beq_iff_eq,
      bne_iff_ne] at hp
    obtain ⟨⟨⟨h1, h2⟩, h3⟩, h4⟩ := hp
    exact ⟨hmem, h1, h2, h3, h4⟩

/-- Witness for C10: a maintenance override with a confirmed covering
booking — the status is maintenance, yet the booking is surfaced. -/
theorem C10_surfaced_despite_override_witness :
    getRoomStatus
      [⟨"r1", "101", "Standard Room", 2, 2500, [], none, true⟩]
      [⟨"a1", "r1", "2024-06-01", RoomStatus.maintenance, none, none⟩]
      [⟨"b1", "c1", "2024-06-01", "2024-06-03", "Standard Room", 2, 0, 0,
        BookingStatus.confirmed, none⟩]
      "r1" "2024-06-01"
      = (⟨"a1", "r1", "2024-06-01", RoomStatus.maintenance, none,
          none⟩ : RoomAvailability).status
    ∧ getRoomStatus
        [⟨"r1", "101", "Standard Room", 2, 2500, [], none, true⟩]
        [⟨"a1", "r1", "2024-06-01", RoomStatus.maintenance, none, none⟩]
        [⟨"b1", "c1", "2024-06-01", "2024-06-03", "Standard Room", 2, 0, 0,
          BookingStatus.confirmed, none⟩]
        "r1" "2024-06-01" ≠ RoomStatus.occupied
    ∧ (getBookingForDate
        [⟨"r1", "101", "Standard Room", 2, 2500, [], none, true⟩]
        [⟨"b1", "c1", "2024-06-01", "2024-06-03", "Standard Room", 2, 0, 0,
          BookingStatus.confirmed, none⟩]
        "r1" "2024-06-01").isSome = true
    ∧ ∀ b', getBookingForDate
        [⟨"r1", "101", "Standard Room", 2, 2500, [], none, true⟩]
        [⟨"b1", "c1", "2024-06-01", "2024-06-03", "Standard Room", 2, 0, 0,
          BookingStatus.confirmed, none⟩]
        "r1" "2024-06-01" = some b' →
        b' ∈ [(⟨"b1", "c1", "2024-06-01", "2024-06-03", "Standard Room", 2,
            0, 0, BookingStatus.confirmed, none⟩ : Booking)]
        ∧ b'.room_type = "Standard Room"
        ∧ strGe "2024-06-01" b'.check_in = true
        ∧ strLt "2024-06-01" b'.check_out = true
        ∧ b'.status ≠ BookingStatus.cancelled :=
  C10_surfaced_despite_override
    [⟨"r1", "101", "Standard Room", 2, 2500, [], none, true⟩]
    [⟨"a1", "r1", "2024-06-01", RoomStatus.maintenance, none, none⟩]
    [⟨"b1", "c1", "2024-06-01", "2024-06-03", "Standard Room", 2, 0, 0,
      BookingStatus.confirmed, none⟩]
    "r1" "2024-06-01"
    ⟨"r1", "101", "Standard Room", 2, 2500, [], none, true⟩
    ⟨"a1", "r1", "2024-06-01", RoomStatus.maintenance, none, none⟩
    ⟨"b1", "c1", "2024-06-01", "2024-06-03", "Standard Room", 2, 0, 0,
      BookingStatus.confirmed, none⟩
    rfl rfl (by decide) (by decide) rfl (by decide) (by decide) (by decide)

/-- Claim C3 as stated fails on the code: `updateBookingStatus` applies any
requested status with no transition validation — here a checked_out
(terminal) booking is set to confirmed and the new status is persisted, with
no error of any kind. -/
theorem C3_counterexample :
    (⟨"bk1", "c1", "2024-06-01", "2024-06-03", "Standard Room", 2, 5000,
      1000, BookingStatus.checked_out, none⟩ : Booking).status
      = BookingStatus.checked_out
    ∧ (updateBookingStatus
        [⟨"bk1", "c1", "2024-06-01", "2024-06-03", "Standard Room", 2, 5000,
          1000, BookingStatus.checked_out, none⟩]
        "bk1" BookingStatus.confirmed).map Booking.status
      = [BookingStatus.confirmed] := by decide

/-- Claim C3 amended: `updateBookingStatus` sets the requested status
unconditionally — every booking with the given id gets the new status
whatever its previous (including terminal) status was, every other booking
is untouched, and no transition error exists (the UI merely hides
check-in/check-out buttons for other statuses). -/
theorem C3_amended (table : List Booking) (id : String) (s : BookingStatus) :
    (∀ b ∈ table, b.id = id →
      ({ b with status := s } : Booking) ∈ updateBookingStatus table id s)
    ∧ (∀ b ∈ table, b.id ≠ id → b ∈ updateBookingStatus table id s)
    ∧ (updateBookingStatus table id s).length = table.length := by
  refine ⟨?_, ?_, by simp [updateBookingStatus]⟩
  · intro b hb hid
    exact List.mem_map.mpr ⟨b, hb, by simp [hid]⟩
  · intro b hb hid
    exact List.mem_map.mpr ⟨b, hb, by simp [hid]⟩

/-- Witness for the amended C3: a checked_out booking is freely moved to
confirmed, the untargeted booking stays. -/
theorem C3_amended_witness :
    (⟨"bk1", "c1", "2024-06-01", "2024-06-03", "Standard Room", 2, 5000,
      1000, BookingStatus.confirmed, none⟩ : Booking) ∈
      updateBookingStatus
        [⟨"bk1", "c1", "2024-06-01", "2024-06-03", "Standard Room", 2, 5000,
          1000, BookingStatus.checked_out, none⟩,
         ⟨"bk2", "c2", "2024-07-01", "2024-07-02", "Suite", 2, 0, 0,
          BookingStatus.confirmed, none⟩]
        "bk1" BookingStatus.confirmed
    ∧ (⟨"bk2", "c2", "2024-07-01", "2024-07-02", "Suite", 2, 0, 0,
        BookingStatus.confirmed, none⟩ : Booking) ∈
      updateBookingStatus
        [⟨"bk1", "c1", "2024-06-01", "2024-06-03", "Standard Room", 2, 5000,
          1000, BookingStatus.checked_out, none⟩,
         ⟨"bk2", "c2", "2024-07-01", "2024-07-02", "Suite", 2, 0, 0,
          BookingStatus.confirmed, none⟩]
        "bk1" BookingStatus.confirmed :=
  ⟨(C3_amended
      [⟨"bk1", "c1", "2024-06-01", "2024-06-03", "Standard Room", 2, 5000,
        1000, BookingStatus.checked_out, none⟩,
       ⟨"bk2", "c2", "2024-07-01", "2024-07-02", "Suite", 2, 0, 0,
        BookingStatus.confirmed, none⟩]
      "bk1" BookingStatus.confirmed).1
    ⟨"bk1", "c1", "2024-06-01", "2024-06-03", "Standard Room", 2, 5000, 1000,
      BookingStatus.checked_out, none⟩
    (by decide) rfl,
   (C3_amended
      [⟨"bk1", "c1", "2024-06-01", "2024-06-03", "Standard Room", 2, 5000,
        1000, BookingStatus.checked_out, none⟩,
       ⟨"bk2", "c2", "2024-07-01", "2024-07-02", "Suite", 2, 0, 0,
        BookingStatus.confirmed, none⟩]
      "bk1" BookingStatus.confirmed).2.1
    ⟨"bk2", "c2", "2024-07-01", "2024-07-02", "Suite", 2, 0, 0,
      BookingStatus.confirmed, none⟩
    (by decide) (by decide)⟩

/-- Claim C7 as stated fails on the code: an out-of-order date range
(check_in after check_out) passes `handleBookingSubmit`'s only validation
(non-empty required fields) and the booking is persisted; there is no
date-order error. -/
theorem C7_counterexample :
    handleBookingSubmit none
      ⟨"c1", "2024-06-03", "2024-06-01", "Standard Room", 2, 5000, 0,
        BookingStatus.confirmed, ""⟩ [] "b1"
      = some [⟨"b1", "c1", "2024-06-03", "2024-06-01", "Standard Room", 2,
          5000, 0, BookingStatus.confirmed, none⟩]
    ∧ strLt "2024-06-03" "2024-06-01" = false := by decide

/-- Claim C7 amended: `handleBookingSubmit` validates only that
`customer_id`, `check_in`, `check_out` and `room_type` are non-empty; when
they are, the booking is inserted with the form's dates verbatim — there is
no comparison of `check_in` with `check_out`, so stored bookings need not
satisfy `check_in < check_out`. -/
theorem C7_amended (form : BookingForm) (table : List Booking)
    (newId : String) (h1 : form.customer_id ≠ "") (h2 : form.check_in ≠ "")
    (h3 : form.check_out ≠ "") (h4 : form.room_type ≠ "") :
    handleBookingSubmit none form table newId
      = some (table ++ [mkBookingRow newId form])
    ∧ (mkBookingRow newId form).check_in = form.check_in
    ∧ (mkBookingRow newId form).check_out = form.check_out := by
  refine ⟨?_, rfl, rfl⟩
  unfold handleBookingSubmit
  rw [if_neg (by simp [h1, h2, h3, h4])]

/-- Witness for the amended C7: the out-of-order form is persisted. -/
theorem C7_amended_witness :
    handleBookingSubmit none
      ⟨"c1", "2024-06-03", "2024-06-01", "Standard Room", 2, 5000, 0,
        BookingStatus.confirmed, ""⟩ [] "b1"
      = some ([] ++ [mkBookingRow "b1"
          ⟨"c1", "2024-06-03", "2024-06-01", "Standard Room", 2, 5000, 0,
            BookingStatus.confirmed, ""⟩])
    ∧ (mkBookingRow "b1"
        ⟨"c1", "2024-06-03", "2024-06-01", "Standard Room", 2, 5000, 0,
          BookingStatus.confirmed, ""⟩).check_in = "2024-06-03"
    ∧ (mkBookingRow "b1"
        ⟨"c1", "2024-06-03", "2024-06-01", "Standard Room", 2, 5000, 0,
          BookingStatus.confirmed, ""⟩).check_out = "2024-06-01" :=
  C7_amended
    ⟨"c1", "2024-06-03", "2024-06-01", "Standard Room", 2, 5000, 0,
      BookingStatus.confirmed, ""⟩ [] "b1"
    (by decide) (by decide) (by decide) (by decide)

/-- Claim C4 (upsert conflict semantics modelled from the spec, the
repository's external datastore enforcing `UNIQUE(room_id, date)`): writing
an override for the same `(room_id, date)` twice with two statuses succeeds
both times, and afterwards exactly one override row exists for the pair and
it carries the second status. -/
theorem C4_upsert_last_write_wins (table : List RoomAvailability)
    (id1 id2 roomId date : String) (s1 s2 : RoomStatus)
    (n1 n2 : Option String)
    (huniq : (table.filter
      (fun o => o.room_id == roomId && o.date == date)).length ≤ 1) :
    ((updateRoomStatus (updateRoomStatus table id1 roomId date s1 n1)
        id2 roomId date s2 n2).filter
      (fun o => o.room_id == roomId && o.date == date)).map
        (fun o => o.status) = [s2] := by
  rw [filter_upsert, any_upsert, if_pos rfl, List.append_nil, filter_upsert]
  by_cases h : table.any (fun o => o.room_id == roomId && o.date == date)
  · rw [if_pos h, List.append_nil]
    have hne : table.filter (fun o => o.room_id == roomId && o.date == date)
        ≠ [] := by
      rw [List.any_eq_true] at h
      obtain ⟨o, ho, hpo⟩ := h
      exact List.ne_nil_of_mem (List.mem_filter.mpr ⟨ho, hpo⟩)
    have hlen : (table.filter
        (fun o => o.room_id == roomId && o.date == date)).length = 1 :=
      le_antisymm huniq (List.length_pos.mpr hne)
    obtain ⟨a, ha⟩ := List.length_eq_one.mp hlen
    rw [ha]
    rfl
  · rw [if_neg h]
    have hnil : table.filter (fun o => o.room_id == roomId && o.date == date)
        = [] := by
      rw [List.filter_eq_nil_iff]
      intro o ho hpo
      exact h (List.any_eq_true.mpr ⟨o, ho, hpo⟩)
    rw [hnil]
    rfl

/-- Witness for C4: a table already holding one override for the pair and an
unrelated row; after two upserts the pair's single row carries the second
status. -/
theorem C4_upsert_last_write_wins_witness :
    ((updateRoomStatus
        (updateRoomStatus
          [⟨"a0", "r1", "2024-06-01", RoomStatus.available, none, none⟩,
           ⟨"z0", "r2", "2024-06-01", RoomStatus.available, none, none⟩]
          "a1" "r1" "2024-06-01" RoomStatus.maintenance none)
        "a2" "r1" "2024-06-01" RoomStatus.blocked (some "painting")).filter
      (fun o => o.room_id == "r1" && o.date == "2024-06-01")).map
        (fun o => o.status) = [RoomStatus.blocked] :=
  C4_upsert_last_write_wins
    [⟨"a0", "r1", "2024-06-01", RoomStatus.available, none, none⟩,
     ⟨"z0", "r2", "2024-06-01", RoomStatus.available, none, none⟩]
    "a1" "a2" "r1" "2024-06-01" RoomStatus.maintenance RoomStatus.blocked
    none (some "painting") (by decide)
